import Mathlib

/-!
Verification development for the rapid-reporting-system client data layer:
the incident report form hook (load and submit workflows), the report data
service module, and the reports list component.  Effectful code is embedded
as a pure function from an explicit backend oracle to a trace of issued
actions; JS truthiness on optional strings is modelled explicitly.
-/

namespace RRS

/-- A JS Date value, modelled by the ISO string it prints as.  Parsing of a
date string by the JS Date constructor is external to this repository, so a
constructed date simply carries its string. -/
structure JSDate where
  iso : String
deriving DecidableEq, Repr

/-- The JS expression new Date(v) for a string v. -/
def jsNewDate (v : String) : JSDate := ⟨v⟩

/-- date.toISOString().split(\x27T\x27)[0] : the calendar-date prefix of the
ISO string. -/
def JSDate.toDateString (d : JSDate) : String :=
  (d.iso.splitOn "T").headD ""

/-- JS truthiness of an optional string: null/undefined and the empty string
are falsy. -/
def strTruthy : Option String → Bool
  | none => false
  | some s => if s = "" then false else true

/-- JS x || "" on an optional string. -/
def strOrEmpty : Option String → String
  | none => ""
  | some s => s

/-- A member of a FileList: name and MIME type. -/
structure FileObj where
  name : String
  mime : String
deriving DecidableEq, Repr

/-- The validated form values (ReportFormSchema). -/
structure ReportFormSchema where
  title : String
  description : String
  incident_date : JSDate
  incident_time : String
  location : String
  main_category_id : String
  categories : List String
  files : Option (List FileObj)
deriving DecidableEq, Repr

/-- A JSON field value in an insert payload. -/
inductive JsonVal
  | s (v : String)
  | null
deriving DecidableEq, Repr

/-- The reportData object literal built by onSubmit, as an ordered
key-value payload. -/
def controllerRow (data : ReportFormSchema) (userId : String) :
    List (String × JsonVal) :=
  [("title", JsonVal.s data.title),
   ("description", JsonVal.s data.description),
   ("incident_date", JsonVal.s data.incident_date.toDateString),
   ("incident_time", JsonVal.s data.incident_time),
   ("location", JsonVal.s data.location),
   ("main_category_id", JsonVal.s data.main_category_id),
   ("user_id", JsonVal.s userId)]

/-- A row of the report_category_assignments insert on the create path. -/
structure AssignmentRow where
  report_id : String
  subcategory_id : String
  main_category_id : String
  is_primary : Bool
deriving DecidableEq, Repr

/-- A member of the p_categories argument of the update RPC. -/
structure CategoryRec where
  subcategory_id : String
  main_category_id : String
  is_primary : Bool
deriving DecidableEq, Repr

/-- A row of the evidence insert. -/
structure EvidenceRow where
  report_id : String
  file_url : String
  file_type : String
  uploaded_by : String
deriving DecidableEq, Repr

/-- A toast notification (title, description, destructive variant flag). -/
structure Toast where
  title : String
  description : String
  destructive : Bool
deriving DecidableEq, Repr

def authErrorToast : Toast :=
  ⟨"Error", "You must be logged in to submit a report", true⟩

def genericErrorToast : Toast :=
  ⟨"Error", "Something went wrong. Please try again.", true⟩

def createSuccessToast : Toast :=
  ⟨"Success", "Report created successfully", false⟩

def updateSuccessToast : Toast :=
  ⟨"Success", "Report updated successfully", false⟩

/-- An observable action issued by the form controller.  resetForm is the
only operation in the source that mutates form field values (used by the
load handler); onSubmit never issues it. -/
inductive Action
  | insertReport (row : List (String × JsonVal))
  | insertAssignments (rows : List AssignmentRow)
  | upload (bucket : String) (path : String) (file : FileObj)
  | insertEvidence (rows : List EvidenceRow)
  | rpcUpdateReportWithCategories (reportId : String)
      (reportData : List (String × JsonVal)) (categories : List CategoryRec)
  | toast (t : Toast)
  | navigate (path : String)
  | resetForm (values : ReportFormSchema)
deriving DecidableEq, Repr

/-- Whether an action is a backend write (insert, upload or RPC). -/
def Action.isWrite : Action → Bool
  | Action.insertReport _ => true
  | Action.insertAssignments _ => true
  | Action.upload _ _ _ => true
  | Action.insertEvidence _ => true
  | Action.rpcUpdateReportWithCategories _ _ _ => true
  | _ => false

/-- The backend oracle: for each operation of one submission, whether it
fails, plus the id assigned to a newly inserted report and the public URL
the storage provider returns for a path. -/
structure Backend where
  insertReportResult : Except Unit String
  insertAssignmentsError : Bool
  uploadError : String → Bool
  publicUrl : String → String
  insertEvidenceError : Bool
  rpcError : Bool

/-- The category-assignment rows built on the create path:
data.categories.map with report_id from the new report, is_primary false. -/
def categoryRows (reportId : String) (data : ReportFormSchema) :
    List AssignmentRow :=
  data.categories.map fun subcategoryId =>
    ⟨reportId, subcategoryId, data.main_category_id, false⟩

/-- The p_categories argument built on the update path:
data.categories.map with is_primary false. -/
def p_categories (data : ReportFormSchema) : List CategoryRec :=
  data.categories.map fun subcategoryId =>
    ⟨subcategoryId, data.main_category_id, false⟩

/-- The storage path of one file: reportId/fileName. -/
def uploadPath (reportId : String) (f : FileObj) : String :=
  reportId ++ "/" ++ f.name

/-- JS guard data.files && data.files.length > 0: the list of files, empty
when the field is undefined. -/
def jsFiles : Option (List FileObj) → List FileObj
  | none => []
  | some fs => fs

/-- The evidence rows built from the uploaded files: public URL of the
storage path, MIME type, uploading user. -/
def evidenceRows (b : Backend) (reportId uid : String) (fs : List FileObj) :
    List EvidenceRow :=
  fs.map fun f =>
    ⟨reportId, b.publicUrl (uploadPath reportId f), f.mime, uid⟩

/-- Actions issued by the file step: all uploads are started together
(Promise.all); the evidence insert is issued only when every upload
succeeded.  Empty when there are no files. -/
def fileActs (b : Backend) (reportId uid : String) (fs : List FileObj) :
    List Action :=
  if fs.length > 0 then
    (fs.map fun f => Action.upload "evidence" (uploadPath reportId f) f) ++
      (if fs.any (fun f => b.uploadError (uploadPath reportId f)) then []
       else [Action.insertEvidence (evidenceRows b reportId uid fs)])
  else []

/-- Whether the file step throws: some upload fails, or the evidence insert
fails.  False when there are no files. -/
def fileFail (b : Backend) (reportId : String) (fs : List FileObj) : Bool :=
  fs.length > 0 &&
    (fs.any (fun f => b.uploadError (uploadPath reportId f)) ||
      b.insertEvidenceError)

/-- The create path of onSubmit: insert the report row; on success insert
category assignments when categories were chosen, then run the file step;
any thrown error is caught and shown as the generic toast; on success a
success toast and navigation to the dashboard. -/
def createPath (b : Backend) (uid : String) (data : ReportFormSchema) :
    List Action :=
  match b.insertReportResult with
  | Except.error _ =>
      [Action.insertReport (controllerRow data uid),
       Action.toast genericErrorToast]
  | Except.ok reportId =>
      let head := [Action.insertReport (controllerRow data uid)]
      let catActs :=
        if data.categories.length > 0 then
          [Action.insertAssignments (categoryRows reportId data)]
        else []
      if data.categories.length > 0 && b.insertAssignmentsError then
        head ++ catActs ++ [Action.toast genericErrorToast]
      else
        let fActs := fileActs b reportId uid (jsFiles data.files)
        if fileFail b reportId (jsFiles data.files) then
          head ++ catActs ++ fActs ++ [Action.toast genericErrorToast]
        else
          head ++ catActs ++ fActs ++
            [Action.toast createSuccessToast, Action.navigate "/dashboard"]

/-- The update path of onSubmit: one RPC carrying the report data and the
full category list; generic toast if it fails, else success toast and
navigation. -/
def updatePath (b : Backend) (reportId uid : String)
    (data : ReportFormSchema) : List Action :=
  let call := Action.rpcUpdateReportWithCategories reportId
    (controllerRow data uid) (p_categories data)
  if b.rpcError then [call, Action.toast genericErrorToast]
  else [call, Action.toast updateSuccessToast, Action.navigate "/dashboard"]

/-- onSubmit: abort with an auth toast when no user id is available,
otherwise branch on the presence of the route id. -/
def onSubmit (b : Backend) (sessionUserId id : Option String)
    (data : ReportFormSchema) : List Action :=
  if strTruthy sessionUserId = false then [Action.toast authErrorToast]
  else
    let uid := strOrEmpty sessionUserId
    if strTruthy id then updatePath b (strOrEmpty id) uid data
    else createPath b uid data

/-- Whether the run of onSubmit (past the auth guard) throws at some write
step, mirroring the order of steps in the source. -/
def writeFailed (b : Backend) (id : Option String)
    (data : ReportFormSchema) : Bool :=
  if strTruthy id then b.rpcError
  else
    match b.insertReportResult with
    | Except.error _ => true
    | Except.ok reportId =>
        (data.categories.length > 0 && b.insertAssignmentsError) ||
          fileFail b reportId (jsFiles data.files)

/-- One fetched report_category_assignments record. -/
structure FetchedAssignment where
  subcategory_id : String
  main_category_id : String
deriving DecidableEq, Repr

/-- The fetched report record, fields nullable as seen by the client. -/
structure FetchedReport where
  title : Option String
  description : Option String
  incident_date : Option String
  incident_time : Option String
  location : Option String
  main_category_id : Option String
  report_category_assignments : Option (List FetchedAssignment)
deriving DecidableEq, Repr

/-- The meta.onSettled handler of the edit query: when data is present,
reset the form with values mapped from the record.  now is the value of
the JS expression new Date() at the time the handler runs.  Returns the
reset values, none when no reset happens. -/
def onSettled (now : JSDate) (data : Option FetchedReport) :
    Option ReportFormSchema :=
  match data with
  | none => none
  | some d =>
      some
        { title := strOrEmpty d.title
          description := strOrEmpty d.description
          incident_date :=
            if strTruthy d.incident_date then
              jsNewDate (strOrEmpty d.incident_date)
            else now
          incident_time := strOrEmpty d.incident_time
          location := strOrEmpty d.location
          main_category_id := strOrEmpty d.main_category_id
          categories :=
            match d.report_category_assignments with
            | some xs => xs.map FetchedAssignment.subcategory_id
            | none => []
          files := none }

/-- The ReportData interface of the report data service module. -/
structure ReportData where
  title : String
  description : String
  category_id : String
  incident_date : Option String
  incident_time : Option String
  location : Option String
  user_id : String
deriving DecidableEq, Repr

/-- An optional string serialized as a JSON value. -/
def optVal : Option String → JsonVal
  | none => JsonVal.null
  | some s => JsonVal.s s

/-- The insert payload of a ReportData value: its declared fields in
declaration order. -/
def ReportData.row (rd : ReportData) : List (String × JsonVal) :=
  [("title", JsonVal.s rd.title),
   ("description", JsonVal.s rd.description),
   ("category_id", JsonVal.s rd.category_id),
   ("incident_date", optVal rd.incident_date),
   ("incident_time", optVal rd.incident_time),
   ("location", optVal rd.location),
   ("user_id", JsonVal.s rd.user_id)]

/-- The createReport service operation: inserts the ReportData payload into
the reports collection and yields the backend result. -/
def createReport (b : Backend) (rd : ReportData) :
    List Action × Except Unit String :=
  ([Action.insertReport rd.row], b.insertReportResult)

/-- Modelled from the specification words of the refinement claim, not from
the source: the ReportData said to correspond to a submitted form, carrying
the form fields, the converted calendar-date string, and the submitting
user id, with the single main category as the category reference. -/
def specCorrespondingReportData (data : ReportFormSchema) (userId : String) :
    ReportData :=
  { title := data.title
    description := data.description
    category_id := data.main_category_id
    incident_date := some data.incident_date.toDateString
    incident_time := some data.incident_time
    location := some data.location
    user_id := userId }

/-- The category relation joined into a list row. -/
structure CaseCategory where
  name : String
deriving DecidableEq, Repr

/-- A report summary as rendered by the reports list. -/
structure Report where
  id : String
  title : String
  status : String
  incident_date : String
  case_categories : Option CaseCategory
deriving DecidableEq, Repr

/-- The rendered date line: the formatted date when the date string is
truthy, otherwise the placeholder text.  Formatting by the date library is
external, so the formatted case carries the source string. -/
inductive DateCell
  | formatted (iso : String)
  | noDate
deriving DecidableEq, Repr

/-- One rendered list item. -/
structure RenderedItem where
  navTarget : String
  title : String
  categoryName : String
  dateCell : DateCell
  badgeVariant : String
  badgeLabel : String
deriving DecidableEq, Repr

/-- The rendered output of the list component. -/
inductive RenderedList
  | placeholder (text : String)
  | items (xs : List RenderedItem)
deriving DecidableEq, Repr

/-- The Badge variant expression: three-way mapping on the status. -/
def badgeVariantOf (status : String) : String :=
  if status = "resolved" then "success"
  else if status = "in_progress" then "warning"
  else "default"

/-- One item of the rendered list. -/
def renderItem (r : Report) : RenderedItem :=
  { navTarget := "/reports/" ++ r.id
    title := r.title
    categoryName :=
      match r.case_categories with
      | some c => c.name
      | none => ""
    dateCell :=
      if strTruthy (some r.incident_date) then DateCell.formatted r.incident_date
      else DateCell.noDate
    badgeVariant := badgeVariantOf r.status
    badgeLabel := r.status }

/-- The ReportsList component: placeholder on empty input, else one item
per report. -/
def ReportsList (reports : List Report) : RenderedList :=
  if reports.length = 0 then RenderedList.placeholder "No reports found"
  else RenderedList.items (reports.map renderItem)

/-- Extract the rows of a category-assignment insert action. -/
def actionAssignRows : Action → Option (List AssignmentRow)
  | Action.insertAssignments rows => some rows
  | _ => none

/-- Extract the rows of an evidence insert action. -/
def actionEvidenceRows : Action → Option (List EvidenceRow)
  | Action.insertEvidence rows => some rows
  | _ => none

/-- Extract bucket, path and file of an upload action. -/
def actionUpload : Action → Option (String × String × FileObj)
  | Action.upload bucket path f => some (bucket, path, f)
  | _ => none

/-- Extract the arguments of an RPC action. -/
def actionRpc :
    Action → Option (String × List (String × JsonVal) × List CategoryRec)
  | Action.rpcUpdateReportWithCategories rid rd cats => some (rid, rd, cats)
  | _ => none

/-- Extract a toast action. -/
def actionToast : Action → Option Toast
  | Action.toast t => some t
  | _ => none

/-- Extract a navigation action. -/
def actionNavigate : Action → Option String
  | Action.navigate p => some p
  | _ => none

/-- All category-assignment inserts of a trace, one rows list per insert. -/
def assignInsertsOf (tr : List Action) : List (List AssignmentRow) :=
  tr.filterMap actionAssignRows

/-- All evidence inserts of a trace, one rows list per insert. -/
def evidenceInsertsOf (tr : List Action) : List (List EvidenceRow) :=
  tr.filterMap actionEvidenceRows

/-- All uploads of a trace. -/
def uploadsOf (tr : List Action) : List (String × String × FileObj) :=
  tr.filterMap actionUpload

/-- All RPC calls of a trace. -/
def rpcCallsOf (tr : List Action) :
    List (String × List (String × JsonVal) × List CategoryRec) :=
  tr.filterMap actionRpc

/-- All toasts of a trace. -/
def toastsOf (tr : List Action) : List Toast :=
  tr.filterMap actionToast

/-- All navigations of a trace. -/
def navigatesOf (tr : List Action) : List String :=
  tr.filterMap actionNavigate

/-! ### Helper lemmas -/

/-- When no upload fails, the any-upload-failed test is false. -/
theorem uploads_ok (b : Backend) (reportId : String) (fs : List FileObj)
    (hu : ∀ p, b.uploadError p = false) :
    (fs.any fun f => b.uploadError (uploadPath reportId f)) = false := by
  simp only [List.any_eq_false]
  intro f _
  simp [hu]

/-- The full trace of a successful create-path run. -/
theorem createPath_success_eq (b : Backend) (uid reportId : String)
    (data : ReportFormSchema)
    (hr : b.insertReportResult = Except.ok reportId)
    (hc : b.insertAssignmentsError = false)
    (hu : ∀ p, b.uploadError p = false)
    (he : b.insertEvidenceError = false) :
    createPath b uid data =
      [Action.insertReport (controllerRow data uid)] ++
      (if data.categories.length > 0 then
        [Action.insertAssignments (categoryRows reportId data)]
       else []) ++
      ((jsFiles data.files).map fun f =>
        Action.upload "evidence" (uploadPath reportId f) f) ++
      (if (jsFiles data.files).length > 0 then
        [Action.insertEvidence
          (evidenceRows b reportId uid (jsFiles data.files))]
       else []) ++
      [Action.toast createSuccessToast, Action.navigate "/dashboard"] := by
  have hany := uploads_ok b reportId (jsFiles data.files) hu
  cases hfs : jsFiles data.files with
  | nil => simp [createPath, hr, hc, he, fileActs, fileFail, hfs]
  | cons f fs =>
      simp [createPath, hr, hc, he, fileActs, fileFail, hfs, hany,
        hfs ▸ hany]

/-- An authenticated submission with no route id runs the create path. -/
theorem onSubmit_auth_create (b : Backend) (sessionUserId id : Option String)
    (data : ReportFormSchema) (hs : strTruthy sessionUserId = true)
    (hid : strTruthy id = false) :
    onSubmit b sessionUserId id data =
      createPath b (strOrEmpty sessionUserId) data := by
  simp [onSubmit, hs, hid]

/-- An authenticated submission with a route id runs the update path. -/
theorem onSubmit_auth_update (b : Backend) (sessionUserId id : Option String)
    (data : ReportFormSchema) (hs : strTruthy sessionUserId = true)
    (hid : strTruthy id = true) :
    onSubmit b sessionUserId id data =
      updatePath b (strOrEmpty id) (strOrEmpty sessionUserId) data := by
  simp [onSubmit, hs, hid]

/-! ### C2: submitting without an authenticated session -/

/-- C2: when no user identifier is available, onSubmit performs no write
action at all, shows exactly the authentication error toast, and does not
navigate. -/
theorem submit_unauthenticated_no_writes (b : Backend)
    (sessionUserId id : Option String) (data : ReportFormSchema)
    (h : strTruthy sessionUserId = false) :
    (∀ a ∈ onSubmit b sessionUserId id data, a.isWrite = false) ∧
    toastsOf (onSubmit b sessionUserId id data) = [authErrorToast] ∧
    navigatesOf (onSubmit b sessionUserId id data) = [] := by
  simp [onSubmit, h, toastsOf, navigatesOf, actionToast, actionNavigate,
    Action.isWrite]

/-- Witness for C2 at a concrete backend, absent session and form. -/
theorem submit_unauthenticated_no_writes_witness :
    strTruthy (none : Option String) = false ∧
    toastsOf (onSubmit
      ⟨Except.ok "r1", false, fun _ => false, fun p => p, false, false⟩
      none none
      ⟨"t", "d", ⟨"2024-01-02T03:04:05.000Z"⟩, "10:00", "loc", "mc",
        ["sub1"], none⟩) = [authErrorToast] :=
  ⟨by decide,
   (submit_unauthenticated_no_writes
      ⟨Except.ok "r1", false, fun _ => false, fun p => p, false, false⟩
      none none
      ⟨"t", "d", ⟨"2024-01-02T03:04:05.000Z"⟩, "10:00", "loc", "mc",
        ["sub1"], none⟩ (by decide)).2.1⟩

/-- Uploads contribute no category-assignment inserts to a trace. -/
@[simp] theorem filterMap_assign_upload (reportId : String)
    (fs : List FileObj) :
    List.filterMap (actionAssignRows ∘ fun f =>
      Action.upload "evidence" (uploadPath reportId f) f) fs = [] := by
  simp [actionAssignRows, Function.comp]

/-- Uploads contribute no evidence inserts to a trace. -/
@[simp] theorem filterMap_evidence_upload (reportId : String)
    (fs : List FileObj) :
    List.filterMap (actionEvidenceRows ∘ fun f =>
      Action.upload "evidence" (uploadPath reportId f) f) fs = [] := by
  simp [actionEvidenceRows, Function.comp]

/-- Uploads contribute no toasts to a trace. -/
@[simp] theorem filterMap_toast_upload (reportId : String)
    (fs : List FileObj) :
    List.filterMap (actionToast ∘ fun f =>
      Action.upload "evidence" (uploadPath reportId f) f) fs = [] := by
  simp [actionToast, Function.comp]

/-- Uploads contribute no navigations to a trace. -/
@[simp] theorem filterMap_navigate_upload (reportId : String)
    (fs : List FileObj) :
    List.filterMap (actionNavigate ∘ fun f =>
      Action.upload "evidence" (uploadPath reportId f) f) fs = [] := by
  simp [actionNavigate, Function.comp]

/-- Uploads contribute no RPC calls to a trace. -/
@[simp] theorem filterMap_rpc_upload (reportId : String)
    (fs : List FileObj) :
    List.filterMap (actionRpc ∘ fun f =>
      Action.upload "evidence" (uploadPath reportId f) f) fs = [] := by
  simp [actionRpc, Function.comp]

/-- The uploads of the upload part of a trace, in order. -/
@[simp] theorem filterMap_upload_upload (reportId : String)
    (fs : List FileObj) :
    List.filterMap (actionUpload ∘ fun f =>
      Action.upload "evidence" (uploadPath reportId f) f) fs =
      fs.map fun f => ("evidence", uploadPath reportId f, f) := by
  induction fs with
  | nil => rfl
  | cons f fs ih =>
      rw [List.filterMap_cons]
      simpa [actionUpload, Function.comp] using ih

/-! ### C3: create path inserts one assignment row per chosen category -/

/-- C3: on a successful create-path submission, the assignment rows
inserted are exactly one per chosen category, each referencing the id of
the newly created report, and no category-assignment insert is issued at
all when no category was chosen. -/
theorem create_inserts_assignment_rows (b : Backend)
    (sessionUserId id : Option String) (data : ReportFormSchema)
    (reportId : String)
    (hs : strTruthy sessionUserId = true)
    (hid : strTruthy id = false)
    (hr : b.insertReportResult = Except.ok reportId)
    (hc : b.insertAssignmentsError = false)
    (hu : ∀ p, b.uploadError p = false)
    (he : b.insertEvidenceError = false) :
    (assignInsertsOf (onSubmit b sessionUserId id data)).flatten.length =
      data.categories.length ∧
    (∀ r ∈ (assignInsertsOf (onSubmit b sessionUserId id data)).flatten,
      r.report_id = reportId) ∧
    (data.categories = [] →
      assignInsertsOf (onSubmit b sessionUserId id data) = []) := by
  rw [onSubmit_auth_create b sessionUserId id data hs hid,
    createPath_success_eq b (strOrEmpty sessionUserId) reportId data hr hc
      hu he]
  cases hcat : data.categories with
  | nil =>
      cases hfs : jsFiles data.files with
      | nil => simp [assignInsertsOf, actionAssignRows, hcat, hfs]
      | cons f fs => simp [assignInsertsOf, actionAssignRows, hcat, hfs]
  | cons c cs =>
      cases hfs : jsFiles data.files with
      | nil =>
          simp [assignInsertsOf, actionAssignRows, categoryRows, hcat, hfs]
      | cons f fs =>
          simp [assignInsertsOf, actionAssignRows, categoryRows, hcat, hfs]

/-- Witness for C3 at a concrete backend and form with two categories. -/
theorem create_inserts_assignment_rows_witness :
    strTruthy (some "u1") = true ∧
    (assignInsertsOf (onSubmit
      ⟨Except.ok "r1", false, fun _ => false, fun p => p, false, false⟩
      (some "u1") none
      ⟨"t", "d", ⟨"2024-01-02T03:04:05.000Z"⟩, "10:00", "loc", "mc",
        ["s1", "s2"], none⟩)).flatten.length = 2 :=
  ⟨by decide,
   (create_inserts_assignment_rows
      ⟨Except.ok "r1", false, fun _ => false, fun p => p, false, false⟩
      (some "u1") none
      ⟨"t", "d", ⟨"2024-01-02T03:04:05.000Z"⟩, "10:00", "loc", "mc",
        ["s1", "s2"], none⟩ "r1" (by decide) (by decide) rfl rfl
      (fun _ => rfl) rfl).1⟩

/-! ### C4: create path uploads files and inserts evidence rows -/

/-- C4: on a successful create-path submission with attached files, one
upload is issued per file at path reportId/fileName, and the evidence rows
inserted are exactly one per file, carrying the public URL of that path,
the file MIME type and the submitting user id; with no files attached, no
upload and no evidence insert is issued. -/
theorem create_inserts_evidence_rows (b : Backend)
    (sessionUserId id : Option String) (data : ReportFormSchema)
    (reportId : String)
    (hs : strTruthy sessionUserId = true)
    (hid : strTruthy id = false)
    (hr : b.insertReportResult = Except.ok reportId)
    (hc : b.insertAssignmentsError = false)
    (hu : ∀ p, b.uploadError p = false)
    (he : b.insertEvidenceError = false) :
    (∀ fs, data.files = some fs →
      uploadsOf (onSubmit b sessionUserId id data) =
        (fs.map fun f => ("evidence", uploadPath reportId f, f)) ∧
      (evidenceInsertsOf (onSubmit b sessionUserId id data)).flatten =
        evidenceRows b reportId (strOrEmpty sessionUserId) fs ∧
      (evidenceInsertsOf (onSubmit b sessionUserId id data)).flatten.length =
        fs.length) ∧
    (jsFiles data.files = [] →
      uploadsOf (onSubmit b sessionUserId id data) = [] ∧
      evidenceInsertsOf (onSubmit b sessionUserId id data) = []) := by
  rw [onSubmit_auth_create b sessionUserId id data hs hid,
    createPath_success_eq b (strOrEmpty sessionUserId) reportId data hr hc
      hu he]
  constructor
  · intro fs hfs
    have hjs : jsFiles data.files = fs := by simp [jsFiles, hfs]
    cases hcat : data.categories with
    | nil =>
        cases hfsn : fs with
        | nil =>
            simp [uploadsOf, evidenceInsertsOf, actionUpload,
              actionEvidenceRows, actionAssignRows, hcat, hjs, hfsn,
              evidenceRows]
        | cons f fs2 =>
            simp [uploadsOf, evidenceInsertsOf, actionUpload,
              actionEvidenceRows, actionAssignRows, hcat, hjs, hfsn,
              evidenceRows]
    | cons c cs =>
        cases hfsn : fs with
        | nil =>
            simp [uploadsOf, evidenceInsertsOf, actionUpload,
              actionEvidenceRows, actionAssignRows, hcat, hjs, hfsn,
              evidenceRows]
        | cons f fs2 =>
            simp [uploadsOf, evidenceInsertsOf, actionUpload,
              actionEvidenceRows, actionAssignRows, hcat, hjs, hfsn,
              evidenceRows]
  · intro hjs
    cases hcat : data.categories with
    | nil =>
        simp [uploadsOf, evidenceInsertsOf, actionUpload,
          actionEvidenceRows, actionAssignRows, hcat, hjs]
    | cons c cs =>
        simp [uploadsOf, evidenceInsertsOf, actionUpload,
          actionEvidenceRows, actionAssignRows, hcat, hjs]

/-- Witness for C4 at a concrete backend and a form with two files. -/
theorem create_inserts_evidence_rows_witness :
    uploadsOf (onSubmit
      ⟨Except.ok "r1", false, fun _ => false, fun p => String.append "https://pub/" p, false, false⟩
      (some "u1") none
      ⟨"t", "d", ⟨"2024-01-02T03:04:05.000Z"⟩, "10:00", "loc", "mc", [],
        some [⟨"a.png", "image/png"⟩, ⟨"b.pdf", "application/pdf"⟩]⟩) =
      [("evidence", "r1/a.png", ⟨"a.png", "image/png"⟩),
       ("evidence", "r1/b.pdf", ⟨"b.pdf", "application/pdf"⟩)] := by
  have h := (create_inserts_evidence_rows
    ⟨Except.ok "r1", false, fun _ => false, fun p => String.append "https://pub/" p, false, false⟩
    (some "u1") none
    ⟨"t", "d", ⟨"2024-01-02T03:04:05.000Z"⟩, "10:00", "loc", "mc", [],
      some [⟨"a.png", "image/png"⟩, ⟨"b.pdf", "application/pdf"⟩]⟩ "r1"
    (by decide) (by decide) rfl rfl (fun _ => rfl) rfl).1
    [⟨"a.png", "image/png"⟩, ⟨"b.pdf", "application/pdf"⟩] rfl
  simpa [uploadPath] using h.1

/-! ### C5: update path issues exactly one RPC and nothing else -/

/-- C5: on an authenticated update-path submission, the trace contains
exactly one RPC call, carrying the report data payload and the full
category list, and contains no report insert, no category-assignment
insert, no upload and no evidence insert. -/
theorem update_single_rpc (b : Backend)
    (sessionUserId id : Option String) (data : ReportFormSchema)
    (hs : strTruthy sessionUserId = true)
    (hid : strTruthy id = true) :
    rpcCallsOf (onSubmit b sessionUserId id data) =
      [(strOrEmpty id, controllerRow data (strOrEmpty sessionUserId),
        p_categories data)] ∧
    assignInsertsOf (onSubmit b sessionUserId id data) = [] ∧
    evidenceInsertsOf (onSubmit b sessionUserId id data) = [] ∧
    uploadsOf (onSubmit b sessionUserId id data) = [] ∧
    (∀ row, Action.insertReport row ∉ onSubmit b sessionUserId id data) := by
  rw [onSubmit_auth_update b sessionUserId id data hs hid]
  cases hrpc : b.rpcError <;>
    simp [updatePath, hrpc, rpcCallsOf, assignInsertsOf, evidenceInsertsOf,
      uploadsOf, actionRpc, actionAssignRows, actionEvidenceRows,
      actionUpload]

/-- Witness for C5 at a concrete backend, route id and form. -/
theorem update_single_rpc_witness :
    rpcCallsOf (onSubmit
      ⟨Except.ok "r1", false, fun _ => false, fun p => p, false, false⟩
      (some "u1") (some "r9")
      ⟨"t", "d", ⟨"2024-01-02T03:04:05.000Z"⟩, "10:00", "loc", "mc",
        ["s1"], none⟩) =
      [("r9",
        controllerRow
          ⟨"t", "d", ⟨"2024-01-02T03:04:05.000Z"⟩, "10:00", "loc", "mc",
            ["s1"], none⟩ "u1",
        p_categories
          ⟨"t", "d", ⟨"2024-01-02T03:04:05.000Z"⟩, "10:00", "loc", "mc",
            ["s1"], none⟩)] :=
  (update_single_rpc
    ⟨Except.ok "r1", false, fun _ => false, fun p => p, false, false⟩
    (some "u1") (some "r9")
    ⟨"t", "d", ⟨"2024-01-02T03:04:05.000Z"⟩, "10:00", "loc", "mc",
      ["s1"], none⟩ (by decide) (by decide)).1

/-! ### C6: any write failure shows the generic toast and nothing else -/

/-- The file step issues no toast. -/
theorem toastsOf_fileActs (b : Backend) (reportId uid : String)
    (fs : List FileObj) : toastsOf (fileActs b reportId uid fs) = [] := by
  unfold fileActs
  split_ifs <;> simp [toastsOf, actionToast]

/-- The file step never navigates. -/
theorem navigate_not_mem_fileActs (b : Backend) (reportId uid p : String)
    (fs : List FileObj) : Action.navigate p ∉ fileActs b reportId uid fs := by
  unfold fileActs
  split_ifs <;> simp

/-- The file step never resets the form. -/
theorem resetForm_not_mem_fileActs (b : Backend) (reportId uid : String)
    (v : ReportFormSchema) (fs : List FileObj) :
    Action.resetForm v ∉ fileActs b reportId uid fs := by
  unfold fileActs
  split_ifs <;> simp

/-- Elementwise form of toastsOf_fileActs. -/
theorem actionToast_none_fileActs (b : Backend) (reportId uid : String)
    (fs : List FileObj) :
    ∀ a ∈ fileActs b reportId uid fs, actionToast a = none := by
  unfold fileActs
  split_ifs with h1 h2
  · intro a ha
    simp only [List.append_nil, List.mem_map] at ha
    rcases ha with ⟨f, _, rfl⟩
    rfl
  · intro a ha
    rcases List.mem_append.mp ha with hm | hm
    · rcases List.mem_map.mp hm with ⟨f, _, rfl⟩
      rfl
    · rcases List.mem_singleton.mp hm with rfl
      rfl
  · intro a ha
    exact absurd ha (List.not_mem_nil a)

/-- C6: when the run past the auth guard fails at any write step, the only
toast shown is the generic failure toast, no navigation and no form reset
is issued, and a report row already inserted on the create path stays in
the trace (nothing is rolled back). -/
theorem submit_failure_generic_toast (b : Backend)
    (sessionUserId id : Option String) (data : ReportFormSchema)
    (hs : strTruthy sessionUserId = true)
    (hf : writeFailed b id data = true) :
    toastsOf (onSubmit b sessionUserId id data) = [genericErrorToast] ∧
    (∀ p, Action.navigate p ∉ onSubmit b sessionUserId id data) ∧
    (∀ v, Action.resetForm v ∉ onSubmit b sessionUserId id data) ∧
    (∀ reportId, strTruthy id = false →
      b.insertReportResult = Except.ok reportId →
      Action.insertReport (controllerRow data (strOrEmpty sessionUserId)) ∈
        onSubmit b sessionUserId id data) := by
  by_cases hid : strTruthy id = true
  · rw [onSubmit_auth_update b sessionUserId id data hs hid]
    have hrpc : b.rpcError = true := by simpa [writeFailed, hid] using hf
    simp [updatePath, hrpc, toastsOf, actionToast, hid]
  · have hid' : strTruthy id = false := by
      revert hid; cases strTruthy id <;> simp
    rw [onSubmit_auth_create b sessionUserId id data hs hid']
    cases hr : b.insertReportResult with
    | error e =>
        simp [createPath, hr, toastsOf, actionToast, hid']
    | ok reportId =>
        have hf2 : (decide (data.categories.length > 0) &&
            b.insertAssignmentsError ||
            fileFail b reportId (jsFiles data.files)) = true := by
          rw [writeFailed, hid'] at hf
          simpa [hr] using hf
        by_cases hcf :
          (decide (data.categories.length > 0) &&
            b.insertAssignmentsError) = true
        · have hcl : data.categories.length > 0 :=
            of_decide_eq_true ((Bool.and_eq_true _ _) ▸ hcf).1
          have herr : b.insertAssignmentsError = true :=
            ((Bool.and_eq_true _ _) ▸ hcf).2
          simp [createPath, hr, hcl, herr, toastsOf, actionToast, hid']
        · have hcf' : (decide (data.categories.length > 0) &&
              b.insertAssignmentsError) = false := by
            revert hcf
            cases decide (data.categories.length > 0) &&
              b.insertAssignmentsError <;> simp
          have hff : fileFail b reportId (jsFiles data.files) = true := by
            rw [hcf'] at hf2; simpa using hf2
          by_cases hcl : data.categories.length > 0
          · have herr : b.insertAssignmentsError = false := by
              revert hcf'; simp [hcl]
            simp [createPath, hr, herr, hff, hcl, toastsOf, actionToast,
              hid', navigate_not_mem_fileActs, resetForm_not_mem_fileActs]
            exact fun a ha => actionToast_none_fileActs b reportId
              (strOrEmpty sessionUserId) (jsFiles data.files) a ha
          · simp [createPath, hr, hff, hcl, toastsOf, actionToast,
              hid', navigate_not_mem_fileActs, resetForm_not_mem_fileActs]
            exact fun a ha => actionToast_none_fileActs b reportId
              (strOrEmpty sessionUserId) (jsFiles data.files) a ha

/-- Witness for C6: the category-assignment insert fails on a concrete
create-path submission. -/
theorem submit_failure_generic_toast_witness :
    toastsOf (onSubmit
      ⟨Except.ok "r1", true, fun _ => false, fun p => p, false, false⟩
      (some "u1") none
      ⟨"t", "d", ⟨"2024-01-02T03:04:05.000Z"⟩, "10:00", "loc", "mc",
        ["s1"], none⟩) = [genericErrorToast] :=
  (submit_failure_generic_toast
    ⟨Except.ok "r1", true, fun _ => false, fun p => p, false, false⟩
    (some "u1") none
    ⟨"t", "d", ⟨"2024-01-02T03:04:05.000Z"⟩, "10:00", "loc", "mc",
      ["s1"], none⟩ (by decide) (by decide)).1

/-! ### C7: ordering of the successful create-path trace -/

/-- C7: on a successful create-path submission, the report insert is the
first action of the trace; for every attached file, the report insert, the
upload of that file, the single evidence insert and the navigation occur
in this order; and the navigation to the dashboard is the final action,
after every write. -/
theorem create_success_ordering (b : Backend)
    (sessionUserId id : Option String) (data : ReportFormSchema)
    (reportId : String)
    (hs : strTruthy sessionUserId = true)
    (hid : strTruthy id = false)
    (hr : b.insertReportResult = Except.ok reportId)
    (hc : b.insertAssignmentsError = false)
    (hu : ∀ p, b.uploadError p = false)
    (he : b.insertEvidenceError = false) :
    (onSubmit b sessionUserId id data).head? =
      some (Action.insertReport
        (controllerRow data (strOrEmpty sessionUserId))) ∧
    (∀ f ∈ jsFiles data.files,
      List.Sublist
        [Action.insertReport (controllerRow data (strOrEmpty sessionUserId)),
         Action.upload "evidence" (uploadPath reportId f) f,
         Action.insertEvidence
           (evidenceRows b reportId (strOrEmpty sessionUserId)
             (jsFiles data.files)),
         Action.navigate "/dashboard"]
        (onSubmit b sessionUserId id data)) ∧
    (onSubmit b sessionUserId id data).getLast? =
      some (Action.navigate "/dashboard") := by
  rw [onSubmit_auth_create b sessionUserId id data hs hid,
    createPath_success_eq b (strOrEmpty sessionUserId) reportId data hr hc
      hu he]
  refine ⟨rfl, ?_, ?_⟩
  · intro f hf
    have hlen : (jsFiles data.files).length > 0 :=
      List.length_pos.mpr (List.ne_nil_of_mem hf)
    rw [if_pos hlen]
    simp only [List.append_assoc]
    refine List.Sublist.append
      (List.Sublist.refl
        [Action.insertReport
          (controllerRow data (strOrEmpty sessionUserId))]) ?_
    refine List.Sublist.trans ?_ (List.sublist_append_right _ _)
    have hmem : Action.upload "evidence" (uploadPath reportId f) f ∈
        (jsFiles data.files).map
          (fun g => Action.upload "evidence" (uploadPath reportId g) g) :=
      List.mem_map.mpr ⟨f, hf, rfl⟩
    refine List.Sublist.append (List.singleton_sublist.mpr hmem) ?_
    exact List.Sublist.append
      (List.Sublist.refl
        [Action.insertEvidence
          (evidenceRows b reportId (strOrEmpty sessionUserId)
            (jsFiles data.files))])
      (List.sublist_append_right [Action.toast createSuccessToast] _)
  · simp [List.getLast?_cons, List.getLast?_append]

/-- Witness for C7 at a concrete backend and a form with one file. -/
theorem create_success_ordering_witness :
    (onSubmit
      ⟨Except.ok "r1", false, fun _ => false, fun p => p, false, false⟩
      (some "u1") none
      ⟨"t", "d", ⟨"2024-01-02T03:04:05.000Z"⟩, "10:00", "loc", "mc",
        ["s1"], some [⟨"a.png", "image/png"⟩]⟩).getLast? =
      some (Action.navigate "/dashboard") :=
  (create_success_ordering
    ⟨Except.ok "r1", false, fun _ => false, fun p => p, false, false⟩
    (some "u1") none
    ⟨"t", "d", ⟨"2024-01-02T03:04:05.000Z"⟩, "10:00", "loc", "mc",
      ["s1"], some [⟨"a.png", "image/png"⟩]⟩ "r1" (by decide) (by decide)
    rfl rfl (fun _ => rfl) rfl).2.2

/-! ### C10: no written assignment is ever primary -/

/-- The file step issues no category-assignment insert. -/
theorem insertAssignments_not_mem_fileActs (b : Backend)
    (reportId uid : String) (rows : List AssignmentRow)
    (fs : List FileObj) :
    Action.insertAssignments rows ∉ fileActs b reportId uid fs := by
  unfold fileActs
  split_ifs <;> simp

/-- The file step issues no RPC. -/
theorem rpc_not_mem_fileActs (b : Backend) (reportId uid rid : String)
    (rd : List (String × JsonVal)) (cats : List CategoryRec)
    (fs : List FileObj) :
    Action.rpcUpdateReportWithCategories rid rd cats ∉
      fileActs b reportId uid fs := by
  unfold fileActs
  split_ifs <;> simp

/-- Any category-assignment insert of the create path carries the rows
built by categoryRows for the new report id. -/
theorem insertAssignments_mem_createPath (b : Backend) (uid : String)
    (data : ReportFormSchema) (rows : List AssignmentRow)
    (h : Action.insertAssignments rows ∈ createPath b uid data) :
    ∃ reportId, rows = categoryRows reportId data := by
  unfold createPath at h
  split at h
  · simp at h
  · split at h
    · split at h
      · simp at h
        exact ⟨_, h⟩
      · split at h
        · simp [insertAssignments_not_mem_fileActs] at h
          exact ⟨_, h⟩
        · simp [insertAssignments_not_mem_fileActs] at h
          exact ⟨_, h⟩
    · split at h
      · simp at h
      · split at h
        · simp [insertAssignments_not_mem_fileActs] at h
        · simp [insertAssignments_not_mem_fileActs] at h

/-- The create path issues no RPC. -/
theorem rpc_not_mem_createPath (b : Backend) (uid rid : String)
    (rd : List (String × JsonVal)) (cats : List CategoryRec)
    (data : ReportFormSchema) :
    Action.rpcUpdateReportWithCategories rid rd cats ∉
      createPath b uid data := by
  intro h
  unfold createPath at h
  split at h
  · simp at h
  · split at h
    · split at h
      · simp at h
      · split at h
        · simp [rpc_not_mem_fileActs] at h
        · simp [rpc_not_mem_fileActs] at h
    · split at h
      · simp at h
      · split at h
        · simp [rpc_not_mem_fileActs] at h
        · simp [rpc_not_mem_fileActs] at h

/-- The update path issues no category-assignment insert. -/
theorem insertAssignments_not_mem_updatePath (b : Backend)
    (reportId uid : String) (data : ReportFormSchema)
    (rows : List AssignmentRow) :
    Action.insertAssignments rows ∉ updatePath b reportId uid data := by
  unfold updatePath
  split_ifs <;> simp

/-- Any RPC of the update path carries the p_categories list. -/
theorem rpc_mem_updatePath (b : Backend) (reportId uid rid : String)
    (rd : List (String × JsonVal)) (cats : List CategoryRec)
    (data : ReportFormSchema)
    (h : Action.rpcUpdateReportWithCategories rid rd cats ∈
      updatePath b reportId uid data) :
    cats = p_categories data := by
  unfold updatePath at h
  split_ifs at h <;> simp at h <;> exact h.2.2

/-- C10: every category-assignment record written by any submission, on
the create path (assignment insert rows) as well as on the update path
(p_categories of the RPC), has is_primary false and main_category_id
equal to the single main category of the form. -/
theorem assignments_never_primary (b : Backend)
    (sessionUserId id : Option String) (data : ReportFormSchema) :
    (∀ rows, Action.insertAssignments rows ∈
        onSubmit b sessionUserId id data →
      ∀ r ∈ rows, r.is_primary = false ∧
        r.main_category_id = data.main_category_id) ∧
    (∀ rid rd cats, Action.rpcUpdateReportWithCategories rid rd cats ∈
        onSubmit b sessionUserId id data →
      ∀ c ∈ cats, c.is_primary = false ∧
        c.main_category_id = data.main_category_id) := by
  by_cases hs : strTruthy sessionUserId = true
  · by_cases hid : strTruthy id = true
    · rw [onSubmit_auth_update b sessionUserId id data hs hid]
      constructor
      · intro rows hmem
        exact absurd hmem (insertAssignments_not_mem_updatePath b
          (strOrEmpty id) (strOrEmpty sessionUserId) data rows)
      · intro rid rd cats hmem c hc
        have hcats := rpc_mem_updatePath b (strOrEmpty id)
          (strOrEmpty sessionUserId) rid rd cats data hmem
        rw [hcats] at hc
        simp only [p_categories, List.mem_map] at hc
        obtain ⟨s, _, rfl⟩ := hc
        exact ⟨rfl, rfl⟩
    · have hid' : strTruthy id = false := by
        revert hid; cases strTruthy id <;> simp
      rw [onSubmit_auth_create b sessionUserId id data hs hid']
      constructor
      · intro rows hmem r hr
        obtain ⟨reportId, hrows⟩ := insertAssignments_mem_createPath b
          (strOrEmpty sessionUserId) data rows hmem
        rw [hrows] at hr
        simp only [categoryRows, List.mem_map] at hr
        obtain ⟨s, _, rfl⟩ := hr
        exact ⟨rfl, rfl⟩
      · intro rid rd cats hmem
        exact absurd hmem (rpc_not_mem_createPath b
          (strOrEmpty sessionUserId) rid rd cats data)
  · have hs' : strTruthy sessionUserId = false := by
      revert hs; cases strTruthy sessionUserId <;> simp
    simp [onSubmit, hs']

/-- Witness for C10 on a concrete create-path trace with one category. -/
theorem assignments_never_primary_witness :
    (⟨"r1", "s1", "mc", false⟩ : AssignmentRow).is_primary = false ∧
    (⟨"r1", "s1", "mc", false⟩ : AssignmentRow).main_category_id = "mc" :=
  (assignments_never_primary
    ⟨Except.ok "r1", false, fun _ => false, fun p => p, false, false⟩
    (some "u1") none
    ⟨"t", "d", ⟨"2024-01-02T03:04:05.000Z"⟩, "10:00", "loc", "mc",
      ["s1"], none⟩).1
    [⟨"r1", "s1", "mc", false⟩] (by decide)
    ⟨"r1", "s1", "mc", false⟩ (by decide)

/-! ### C9: badge variants and empty-list placeholder -/

/-- C9: the rendered badge variant of every report summary follows the
three-way status mapping (resolved to success, in_progress to warning,
anything else to default), and the empty input renders only the single
placeholder message. -/
theorem reports_list_badges (reports : List Report) :
    (reports = [] →
      ReportsList reports = RenderedList.placeholder "No reports found") ∧
    (reports ≠ [] →
      ReportsList reports = RenderedList.items (reports.map renderItem)) ∧
    (∀ r ∈ reports,
      (r.status = "resolved" → (renderItem r).badgeVariant = "success") ∧
      (r.status = "in_progress" → (renderItem r).badgeVariant = "warning") ∧
      (r.status ≠ "resolved" → r.status ≠ "in_progress" →
        (renderItem r).badgeVariant = "default")) := by
  refine ⟨?_, ?_, ?_⟩
  · intro h
    simp [ReportsList, h]
  · intro h
    rw [ReportsList, if_neg (by simpa [List.length_eq_zero] using h)]
  · intro r _
    refine ⟨?_, ?_, ?_⟩
    · intro h1
      simp [renderItem, badgeVariantOf, h1]
    · intro h1
      simp [renderItem, badgeVariantOf, h1]
    · intro h1 h2
      simp [renderItem, badgeVariantOf, h1, h2]

/-- Witness for C9: placeholder on the empty list and a resolved badge. -/
theorem reports_list_badges_witness :
    ReportsList [] = RenderedList.placeholder "No reports found" ∧
    (renderItem ⟨"id1", "T", "resolved", "2024-01-01", none⟩).badgeVariant =
      "success" :=
  ⟨(reports_list_badges []).1 rfl,
   ((reports_list_badges [⟨"id1", "T", "resolved", "2024-01-01", none⟩]).2.2
      ⟨"id1", "T", "resolved", "2024-01-01", none⟩
      (List.mem_singleton.mpr rfl)).1 rfl⟩

/-! ### C1: loading an existing report populates the form -/

/-- C1 counterexample: when the fetched record has no incident date, the
load handler does not reset the date to an empty value: it resets it to
the current date (the now argument), a non-empty value that varies with
the time the handler runs. -/
theorem load_absent_date_defaults_to_current_date :
    (∃ r, onSettled ⟨"2026-10-12T00:00:00.000Z"⟩
        (some ⟨none, none, none, none, none, none, none⟩) = some r ∧
      r.incident_date = ⟨"2026-10-12T00:00:00.000Z"⟩ ∧
      r.incident_date ≠ ⟨""⟩ ∧
      r.incident_time = "" ∧ r.location = "") ∧
    onSettled ⟨"2026-10-12T00:00:00.000Z"⟩
        (some ⟨none, none, none, none, none, none, none⟩) ≠
      onSettled ⟨"2027-01-01T00:00:00.000Z"⟩
        (some ⟨none, none, none, none, none, none, none⟩) := by
  exact ⟨⟨_, rfl, rfl, by decide, rfl, rfl⟩, by decide⟩

/-- C1 as amended: for every fetched record the load handler resets every
form field from the record, defaulting absent text fields (incident time,
location, title, description, main category) to the empty string, an
absent incident date to the current date, and mapping the fetched
assignments to the flat list of their subcategory ids, the empty list when
assignments are absent. -/
theorem load_populates_fields (now : JSDate) (d : FetchedReport) :
    ∃ r, onSettled now (some d) = some r ∧
      r.title = strOrEmpty d.title ∧
      r.description = strOrEmpty d.description ∧
      (d.incident_date = none → r.incident_date = now) ∧
      (∀ s, d.incident_date = some s → s ≠ "" →
        r.incident_date = jsNewDate s) ∧
      r.incident_time = strOrEmpty d.incident_time ∧
      r.location = strOrEmpty d.location ∧
      r.main_category_id = strOrEmpty d.main_category_id ∧
      (d.report_category_assignments = none → r.categories = []) ∧
      (∀ xs, d.report_category_assignments = some xs →
        r.categories = xs.map FetchedAssignment.subcategory_id) ∧
      r.files = none := by
  refine ⟨_, rfl, rfl, rfl, ?_, ?_, rfl, rfl, rfl, ?_, ?_, rfl⟩
  · intro hd
    simp [strTruthy, hd]
  · intro s hs hns
    simp [strTruthy, strOrEmpty, hs, hns]
  · intro h
    simp [h]
  · intro xs h
    simp [h]

/-- Witness for C1 (amended) at a concrete record with no incident date
and one assignment. -/
theorem load_populates_fields_witness :
    ∃ r, onSettled ⟨"2026-03-04T05:06:07.000Z"⟩
        (some ⟨some "T", some "D", none, some "09:30", some "L", some "M",
          some [⟨"s1", "m1"⟩]⟩) = some r ∧
      r.incident_date = ⟨"2026-03-04T05:06:07.000Z"⟩ ∧
      r.categories = ["s1"] := by
  obtain ⟨r, h1, _, _, h4, _, _, _, _, _, h10, _⟩ :=
    load_populates_fields ⟨"2026-03-04T05:06:07.000Z"⟩
      ⟨some "T", some "D", none, some "09:30", some "L", some "M",
        some [⟨"s1", "m1"⟩]⟩
  exact ⟨r, h1, h4 rfl, by simpa using h10 [⟨"s1", "m1"⟩] rfl⟩

/-! ### C8: the controller create write versus the service createReport -/

/-- C8 counterexample: at a concrete form, the row the controller inserts
is not the row createReport would insert for the corresponding ReportData:
the service payload stores the category reference under key category_id
while the controller stores it under key main_category_id. -/
theorem controller_row_differs_from_service_row :
    (createReport
        ⟨Except.ok "r1", false, fun _ => false, fun p => p, false, false⟩
        (specCorrespondingReportData
          ⟨"t", "d", ⟨"2024-01-02T03:04:05.000Z"⟩, "10:00", "loc", "mc",
            [], none⟩ "u1")).1 ≠
      [Action.insertReport (controllerRow
        ⟨"t", "d", ⟨"2024-01-02T03:04:05.000Z"⟩, "10:00", "loc", "mc",
          [], none⟩ "u1")] := by
  decide

/-- C8 as amended: for every form and user id, the controller create-path
row and the createReport payload for the corresponding ReportData agree on
the title, description, incident date string, incident time, location and
user id fields, and both carry the single main category value, but they
store it under different keys: main_category_id in the controller row,
category_id in the service payload, so the controller write is not a
field-for-field refinement of createReport. -/
theorem controller_row_matches_service_row_fields
    (data : ReportFormSchema) (userId : String) :
    (controllerRow data userId).lookup "title" =
      ((specCorrespondingReportData data userId).row).lookup "title" ∧
    (controllerRow data userId).lookup "description" =
      ((specCorrespondingReportData data userId).row).lookup "description" ∧
    (controllerRow data userId).lookup "incident_date" =
      ((specCorrespondingReportData data userId).row).lookup
        "incident_date" ∧
    (controllerRow data userId).lookup "incident_time" =
      ((specCorrespondingReportData data userId).row).lookup
        "incident_time" ∧
    (controllerRow data userId).lookup "location" =
      ((specCorrespondingReportData data userId).row).lookup "location" ∧
    (controllerRow data userId).lookup "user_id" =
      ((specCorrespondingReportData data userId).row).lookup "user_id" ∧
    (controllerRow data userId).lookup "main_category_id" =
      some (JsonVal.s data.main_category_id) ∧
    ((specCorrespondingReportData data userId).row).lookup "category_id" =
      some (JsonVal.s data.main_category_id) ∧
    (controllerRow data userId).lookup "category_id" = none ∧
    ((specCorrespondingReportData data userId).row).lookup
      "main_category_id" = none := by
  simp [controllerRow, ReportData.row, specCorrespondingReportData, optVal,
    List.lookup]

end RRS
